import Mathlib

/-!
Verification of the pyNeuroML simulation-runner and morphology-plotting
modules (`pyneuroml/runners.py`, `pyneuroml/plot/PlotMorphology.py`).

The Python source is shallowly embedded: pure string/flag computations become
Lean functions over `String`/`Bool`/`List`; filesystem state is passed
explicitly as a record of functions; numeric file contents are modelled as
rationals; the floating-point geometry helpers are modelled over the reals.
Python exceptions are modelled with `Except`; a Python expression such as
`a / 0` that would produce an IEEE `NaN`/error is represented by Lean's
total division (yielding `0`), which is noted where it matters.
-/

namespace PyNeuroML

/-! ## Embedding of `_gui_string` and `_include_string` (runners.py:657-682)

`_include_string` receives a Python value that may be a `str`, a `list` or a
`tuple` (its annotated types); `PyPaths` captures those cases.
-/

/-- The dynamic argument of `_include_string`: a Python `str`, `list` or
`tuple` of strings. -/
inductive PyPaths where
  | pstr (s : String)
  | plist (l : List String)
  | ptuple (l : List String)
deriving DecidableEq

/-- Python truthiness of a `PyPaths` value: non-empty string / list / tuple. -/
def PyPaths.truthy : PyPaths → Bool
  | .pstr s => !s.isEmpty
  | .plist l => !l.isEmpty
  | .ptuple l => !l.isEmpty

/-- `_gui_string(nogui)` (runners.py:657): `" -nogui"` if `nogui` else `""`. -/
def _gui_string (nogui : Bool) : String :=
  if nogui then " -nogui" else ""

/-- `_include_string(paths_to_include)` (runners.py:667-682):
a truthy `str` is first wrapped into a one-element list; then any `list` or
`tuple` (empty ones included, since the wrapping step is guarded by
truthiness but the formatting step only checks the type) is rendered as
`" -I <p1>:<p2>:..."` (the joined paths wrapped in single quotes); anything else gives `""`. -/
def _include_string (paths_to_include : PyPaths) : String :=
  let p :=
    if paths_to_include.truthy then
      match paths_to_include with
      | .pstr s => PyPaths.plist [s]
      | x => x
    else paths_to_include
  match p with
  | .plist l => " -I \x27" ++ String.intercalate ":" l ++ "\x27"
  | .ptuple l => " -I \x27" ++ String.intercalate ":" l ++ "\x27"
  | .pstr _ => ""

/-- The `post_args` string built by `run_lems_with_jneuroml`
(runners.py:88-90): `_gui_string(nogui) + _include_string(paths_to_include)`. -/
def jneuroml_post_args (nogui : Bool) (paths_to_include : PyPaths) : String :=
  _gui_string nogui ++ _include_string paths_to_include

/-! ## Control flow of `run_lems_with_jneuroml` (runners.py:85-121)

The external `jnml` invocation is abstracted by its boolean outcome
(`run_result`), and the value produced by `reload_saved_data` by an abstract
`reload_result`.  The Python local variable `success` is only assigned inside
`if not skip_run:`; reading an unassigned local raises `UnboundLocalError`,
modelled by tracking the variable as an `Option Bool`. -/

/-- Possible return values of `run_lems_with_jneuroml`: a boolean, or the
value delegated from `reload_saved_data`. -/
inductive RunRet (ρ : Type) where
  | boolVal (b : Bool)
  | reloaded (r : ρ)
deriving DecidableEq

/-- Control flow of `run_lems_with_jneuroml` (runners.py:92-121): `success`
is assigned only when `not skip_run`; it is then read by `if not success:`
(an `UnboundLocalError` when unassigned), then `load_saved_data` selects
between delegating to `reload_saved_data` and returning `True`. -/
def run_lems_with_jneuroml {ρ : Type} (skip_run : Bool) (run_result : Bool)
    (load_saved_data : Bool) (reload_result : ρ) : Except String (RunRet ρ) :=
  let success : Option Bool := if !skip_run then some run_result else none
  match success with
  | none => .error "UnboundLocalError: local variable success referenced before assignment"
  | some s =>
    if !s then .ok (.boolVal false)
    else if load_saved_data then .ok (.reloaded reload_result)
    else .ok (.boolVal true)

/-! ## `run_lems_with_eden` (runners.py:609-654)

The in-process EDEN library call `eden_simulator.runEden(lems_file_name)` is
abstracted as a function parameter `runEden`.  The returned events mapping is
a (here always empty) association list. -/

/-- Possible return values of `run_lems_with_eden`: a boolean, the bare
results mapping, or a `(results, events)` pair. -/
inductive EdenRet (τ : Type) where
  | boolVal (b : Bool)
  | traces (t : τ)
  | tracesAndEvents (t : τ) (events : List (String × List ℚ))
deriving DecidableEq

/-- `run_lems_with_eden` (runners.py:641-654): after obtaining
`results = runEden(lems_file_name)`, returns `results, {}` when
`load_saved_data` (with a warning that event saving is unsupported), has a
dead `elif load_saved_data: return results` branch, and returns `True`
otherwise.  `reload_events` and `verbose` do not influence the result. -/
def run_lems_with_eden {τ : Type} (runEden : String → τ) (lems_file_name : String)
    (load_saved_data : Bool) (reload_events : Bool) : EdenRet τ :=
  let results := runEden lems_file_name
  if load_saved_data then
    .tracesAndEvents results []
  else if load_saved_data then
    .traces results
  else
    .boolVal true

/-! ## Dispatch loop of `run_multiple_lems_with` (runners.py:124-210)

`inspect.getmembers(sys.modules[__name__], inspect.isfunction)` returns the
functions defined in `runners.py`, sorted by name; the loop submits the first
function whose name starts with `"run_lems_with"` and ends with the entry's
engine.  When no function matches, the code executes
the `logger.error` f-string of runners.py:203 — subscripting the *top-level*
`sims_spec` dict (whose keys are LEMS file names) with the key `engine` —
and then returns the empty dict.  Job submission itself is
abstracted: a successful dispatch records the matched function name. -/

/-- The functions of `runners.py` as reported by `inspect.getmembers`
(sorted by name). -/
def runners_module_functions : List String :=
  ["_gui_string", "_include_string", "execute_command_in_dir",
   "execute_command_in_dir_with_realtime_output",
   "generate_sim_scripts_in_folder", "reload_saved_data", "run_jneuroml",
   "run_jneuroml_with_realtime_output", "run_lems_with", "run_lems_with_eden",
   "run_lems_with_jneuroml", "run_lems_with_jneuroml_brian2",
   "run_lems_with_jneuroml_netpyne", "run_lems_with_jneuroml_neuron",
   "run_multiple_lems_with"]

/-- One entry of the `sims_spec` mapping; `args`/`kwargs` are not modelled
since they do not influence the dispatch/abort behaviour. -/
structure SimSpec where
  engine : String
deriving DecidableEq

/-- Python `s.startswith(p)`, on the character lists of the strings. -/
def strStartsWith (s p : String) : Bool :=
  List.isPrefixOf p.data s.data

/-- Python `s.endswith(p)`, on the character lists of the strings. -/
def strEndsWith (s p : String) : Bool :=
  List.isSuffixOf p.data s.data

/-- The match test of runners.py:182:
`fname.startswith("run_lems_with") and fname.endswith(sim_dict["engine"])`. -/
def engine_matches (fname engine : String) : Bool :=
  strStartsWith fname "run_lems_with" && strEndsWith fname engine

/-- Python association-list lookup (`dict` subscription). -/
def pyLookup {α : Type} (d : List (String × α)) (k : String) : Option α :=
  (d.find? (fun p => p.fst == k)).map Prod.snd

/-- Inner loop body of `run_multiple_lems_with` for one `sims_spec` entry:
the first matching module function is submitted (recorded by name), else the
error-logging line subscripts the top-level `sims_spec` with the key
`engine` (a `KeyError` when, as documented, its keys are LEMS file names) before
`return {}` could run. -/
def run_multiple_lems_with_step (sims_spec : List (String × SimSpec))
    (sim : String) (sd : SimSpec) :
    Except String (Option (String × String)) :=
  match runners_module_functions.find? (fun f => engine_matches f sd.engine) with
  | some f => .ok (some (sim, f))
  | none =>
    match pyLookup sims_spec "engine" with
    | some _ => .ok none   -- message formats, error is logged, empty dict returned
    | none => .error "KeyError: engine"

/-- Dispatch loop of `run_multiple_lems_with` (runners.py:175-210): entries
are processed in order; each successful dispatch appends
`(sim, matched function name)` to the results; a failed dispatch for any
entry aborts (either by the `KeyError` of runners.py:203 or, were the
subscript to succeed, by `return {}`). -/
def run_multiple_lems_with (sims_spec : List (String × SimSpec)) :
    Except String (List (String × String)) :=
  go sims_spec sims_spec []
where
  go (full : List (String × SimSpec)) :
      List (String × SimSpec) → List (String × String) →
      Except String (List (String × String))
  | [], acc => .ok acc
  | (sim, sd) :: rest, acc =>
    match run_multiple_lems_with_step full sim sd with
    | .error e => .error e
    | .ok none => .ok []
    | .ok (some r) => go full rest (acc ++ [r])

/-! ## `reload_saved_data`, `OutputFile` handling (runners.py:1123-1170)

The filesystem is passed explicitly: which paths exist, each path's
modification time (an integer timestamp), and each file's contents as lines
of already-parsed numbers (Python's `float(...)` parse of whitespace-split
fields is abstracted to `ℚ` values). -/

/-- Explicit filesystem state for `reload_saved_data`. -/
structure FSState where
  isFile : String → Bool
  mtime : String → Int
  content : String → List (List ℚ)

/-- `os.path.join` for the relative paths used here. -/
def joinPath (a b : String) : String := a ++ "/" ++ b

/-- A declared `OutputFile` element: its `fileName` attribute and the
`quantity` attributes of its `OutputColumn` children, in document order. -/
structure OutputFileDecl where
  fileName : String
  columns : List String
deriving DecidableEq

/-- Errors raised while reloading one `OutputFile`. -/
inductive ReloadErr where
  | notFound (path : String)
  | stale (path : String) (t_file_mod t_run : Int)
  | indexError
deriving DecidableEq

/-- Path resolution for an `OutputFile` (runners.py:1126-1139): `file_name`
is successively reassigned to the candidate relative to `base_dir`, to the
LEMS file's own directory, to the current working directory, and to
`NeuroML2/results` under the current working directory, stopping at the
first existing path; if none exists an `OSError` naming the last candidate
is raised. -/
def resolve_output_file (fs : FSState)
    (base_dir base_lems_file_path cwd name : String) : Except ReloadErr String :=
  let f1 := joinPath base_dir name
  if fs.isFile f1 then .ok f1
  else
    let f2 := joinPath base_lems_file_path name
    if fs.isFile f2 then .ok f2
    else
      let f3 := joinPath cwd name
      if fs.isFile f3 then .ok f3
      else
        let f4 := joinPath (joinPath (joinPath cwd "NeuroML2") "results") name
        if fs.isFile f4 then .ok f4
        else .error (.notFound f4)

/-- Column collection of runners.py:1160-1164: for each line, the value at
index `vi` is appended to `traces[cols[vi]]`, so column `vi` collects the
`vi`-th field of every line that has one. -/
def build_traces (cols : List String) (lines : List (List ℚ)) :
    List (String × List ℚ) :=
  (List.range cols.length).map
    (fun vi => (cols.getD vi "", lines.filterMap (fun l => l.get? vi)))

/-- Processing of one declared `OutputFile` inside `reload_saved_data`
(runners.py:1123-1164): resolve the path, raise the staleness `Exception`
when `t_file_mod < t_run` (runners.py:1141), then read the columns
`["t"] ++ OutputColumn quantities`; a line with more fields than declared
columns would raise an `IndexError` at `cols[vi]`. -/
def reload_output_file (fs : FSState) (base_dir base_lems_file_path cwd : String)
    (t_run : Int) (of : OutputFileDecl) : Except ReloadErr (List (String × List ℚ)) :=
  match resolve_output_file fs base_dir base_lems_file_path cwd of.fileName with
  | .error e => .error e
  | .ok file_name =>
    let t_file_mod := fs.mtime file_name
    if t_file_mod < t_run then
      .error (.stale file_name t_file_mod t_run)
    else
      let cols := "t" :: of.columns
      let lines := fs.content file_name
      if lines.all (fun l => l.length ≤ cols.length) then
        .ok (build_traces cols lines)
      else
        .error .indexError

/-- The candidate list, in the order documented by the specification, for
locating a declared `OutputFile` (used to state the path-resolution claim
against `resolve_output_file`). -/
def output_file_candidates (base_dir base_lems_file_path cwd name : String) :
    List String :=
  [joinPath base_dir name,
   joinPath base_lems_file_path name,
   joinPath cwd name,
   joinPath (joinPath (joinPath cwd "NeuroML2") "results") name]

/-! ## `plot_2D` segment width (PlotMorphology.py:292-295)

`width = (p.diameter + d.diameter)/2; if width < min_width: width = min_width`.
Diameters are modelled as rationals. -/

/-- The line width used by `plot_2D` for one segment
(PlotMorphology.py:292-295). -/
def plot2d_seg_width (p_diameter d_diameter min_width : ℚ) : ℚ :=
  let width := (p_diameter + d_diameter) / 2
  if width < min_width then min_width else width

/-! ## Geometry helpers (PlotMorphology.py:853-986)

The floating-point arrays are modelled over `ℝ`.  `numpy.linspace(a, b, n)`
(and `numpy.mgrid` with an imaginary step count, which is equivalent) yields
`n` evenly spaced samples with *both* endpoints included; its general formula
`a + (b - a) * i / (n - 1)` also covers `n = 1` (the sample `a`, since Lean's
division by zero yields `0`, matching numpy's special case) and `n = 0`
(no samples). -/

/-- `numpy.linspace(a, b, n)`: `n` samples from `a` to `b`, endpoints
included. -/
noncomputable def linspace (a b : ℝ) (n : ℕ) : List ℝ :=
  (List.range n).map (fun i : ℕ => a + (b - a) * (i : ℝ) / ((n : ℝ) - 1))

/-- The azimuth samples `u` of `get_sphere_surface`
(PlotMorphology.py:875): `np.mgrid[0:2*np.pi:resolution*2j]`, i.e.
`2*resolution` samples over `[0, 2π]`. -/
noncomputable def get_sphere_surface_u (resolution : ℕ) : List ℝ :=
  linspace 0 (2 * Real.pi) (2 * resolution)

/-- The polar-angle samples `v` of `get_sphere_surface`
(PlotMorphology.py:875): `np.mgrid[0:np.pi:resolution*1j]`, i.e.
`resolution` samples over `[0, π]`. -/
noncomputable def get_sphere_surface_v (resolution : ℕ) : List ℝ :=
  linspace 0 Real.pi resolution

/-- The `X` grid of `get_sphere_surface` (PlotMorphology.py:876):
`X[i][j] = radius * cos(u_i) * sin(v_j) + x`. -/
noncomputable def get_sphere_surface_X (x radius : ℝ) (resolution : ℕ) :
    List (List ℝ) :=
  (get_sphere_surface_u resolution).map (fun u =>
    (get_sphere_surface_v resolution).map (fun v =>
      radius * Real.cos u * Real.sin v + x))

/-- The `Y` grid of `get_sphere_surface` (PlotMorphology.py:877):
`Y[i][j] = radius * sin(u_i) * sin(v_j) + y`. -/
noncomputable def get_sphere_surface_Y (y radius : ℝ) (resolution : ℕ) :
    List (List ℝ) :=
  (get_sphere_surface_u resolution).map (fun u =>
    (get_sphere_surface_v resolution).map (fun v =>
      radius * Real.sin u * Real.sin v + y))

/-- The `Z` grid of `get_sphere_surface` (PlotMorphology.py:878):
`Z[i][j] = radius * cos(v_j) + z` (constant along the azimuth axis). -/
noncomputable def get_sphere_surface_Z (z radius : ℝ) (resolution : ℕ) :
    List (List ℝ) :=
  (get_sphere_surface_u resolution).map (fun _ =>
    (get_sphere_surface_v resolution).map (fun v =>
      radius * Real.cos v + z))

/-! ### `get_frustrum_surface` (PlotMorphology.py:883-986)

3-vectors of reals, with the componentwise operations numpy performs. -/

/-- A 3-dimensional real vector. -/
structure Vec3 where
  x : ℝ
  y : ℝ
  z : ℝ

theorem Vec3.ext_iff' (a b : Vec3) : a = b ↔ a.x = b.x ∧ a.y = b.y ∧ a.z = b.z := by
  cases a
  cases b
  simp [Vec3.mk.injEq]

/-- Componentwise vector addition. -/
def vadd (a b : Vec3) : Vec3 := ⟨a.x + b.x, a.y + b.y, a.z + b.z⟩

/-- Componentwise vector subtraction (`p_distal - p_proximal`). -/
def vsub (a b : Vec3) : Vec3 := ⟨a.x - b.x, a.y - b.y, a.z - b.z⟩

/-- Scalar multiple of a vector. -/
def smulV (c : ℝ) (a : Vec3) : Vec3 := ⟨c * a.x, c * a.y, c * a.z⟩

/-- Componentwise division of a vector by a scalar (numpy `v / s`). -/
noncomputable def vdivs (a : Vec3) (s : ℝ) : Vec3 := ⟨a.x / s, a.y / s, a.z / s⟩

/-- `numpy.cross` of two 3-vectors. -/
def cross (a b : Vec3) : Vec3 :=
  ⟨a.y * b.z - a.z * b.y, a.z * b.x - a.x * b.z, a.x * b.y - a.y * b.x⟩

/-- Dot product of two 3-vectors. -/
def dot (a b : Vec3) : ℝ := a.x * b.x + a.y * b.y + a.z * b.z

/-- `numpy.linalg.norm` of a 3-vector. -/
noncomputable def vnorm (a : Vec3) : ℝ := Real.sqrt (dot a a)

/-- The zero vector. -/
def vzero : Vec3 := ⟨0, 0, 0⟩

/-- The X unit vector `np.array([1, 0, 0])` (PlotMorphology.py:946). -/
def exV : Vec3 := ⟨1, 0, 0⟩

/-- The Y unit vector `np.array([0, 1, 0])` (PlotMorphology.py:948). -/
def eyV : Vec3 := ⟨0, 1, 0⟩

/-- `axis_vector = p_distal - p_proximal` (PlotMorphology.py:941). -/
def axis_vector (p_proximal p_distal : Vec3) : Vec3 := vsub p_distal p_proximal

/-- `axis_mag = np.linalg.norm(axis_vector)` (PlotMorphology.py:942). -/
noncomputable def axis_mag (p_proximal p_distal : Vec3) : ℝ :=
  vnorm (axis_vector p_proximal p_distal)

/-- `axis_unit_vector = axis_vector / axis_mag` (PlotMorphology.py:944). -/
noncomputable def axis_unit_vector (p_proximal p_distal : Vec3) : Vec3 :=
  vdivs (axis_vector p_proximal p_distal) (axis_mag p_proximal p_distal)

open Classical in
/-- The auxiliary vector `somev` (PlotMorphology.py:946-948): the X unit
vector, replaced by the Y unit vector when the axis unit vector equals the X
unit vector exactly. -/
noncomputable def somev (axis_unit : Vec3) : Vec3 :=
  if axis_unit = exV then eyV else exV

/-- `perpv1 = np.cross(axis_unit_vector, somev)` (PlotMorphology.py:950). -/
noncomputable def perpv1 (p_proximal p_distal : Vec3) : Vec3 :=
  cross (axis_unit_vector p_proximal p_distal)
    (somev (axis_unit_vector p_proximal p_distal))

/-- `perpv1_unit = perpv1 / np.linalg.norm(perpv1)` (PlotMorphology.py:951). -/
noncomputable def perpv1_unit (p_proximal p_distal : Vec3) : Vec3 :=
  vdivs (perpv1 p_proximal p_distal) (vnorm (perpv1 p_proximal p_distal))

/-- `perpv2_unit = np.cross(axis_unit_vector, perpv1_unit)`
(PlotMorphology.py:952). -/
noncomputable def perpv2_unit (p_proximal p_distal : Vec3) : Vec3 :=
  cross (axis_unit_vector p_proximal p_distal) (perpv1_unit p_proximal p_distal)

/-- The axial sample `t_i` (PlotMorphology.py:954):
`np.linspace(0.0, axis_mag, resolution)`. -/
noncomputable def frustum_t (p_proximal p_distal : Vec3) (resolution i : ℕ) : ℝ :=
  (linspace 0 (axis_mag p_proximal p_distal) resolution).getD i 0

/-- The interpolated radius sample `r_i` (PlotMorphology.py:955):
`np.linspace(radius1, radius2, resolution)`. -/
noncomputable def frustum_r (radius1 radius2 : ℝ) (resolution i : ℕ) : ℝ :=
  (linspace radius1 radius2 resolution).getD i 0

/-- The angular sample `theta_j` (PlotMorphology.py:956):
`np.linspace(0, 2 * np.pi, angular_resolution)`. -/
noncomputable def frustum_theta (angular_resolution j : ℕ) : ℝ :=
  (linspace 0 (2 * Real.pi) angular_resolution).getD j 0

/-- One lateral surface point of `get_frustrum_surface`
(PlotMorphology.py:961-967): the grid entry for axial index `i` and angular
index `j` is
`p_proximal + axis_unit_vector * t_i + r_i * sin(theta_j) * perpv1_unit
 + r_i * cos(theta_j) * perpv2_unit` (componentwise). -/
noncomputable def lateral_point (p_proximal p_distal : Vec3) (radius1 radius2 : ℝ)
    (resolution angular_resolution i j : ℕ) : Vec3 :=
  let t := frustum_t p_proximal p_distal resolution i
  let r := frustum_r radius1 radius2 resolution i
  let θ := frustum_theta angular_resolution j
  vadd p_proximal
    (vadd (smulV t (axis_unit_vector p_proximal p_distal))
      (vadd (smulV (r * Real.sin θ) (perpv1_unit p_proximal p_distal))
        (smulV (r * Real.cos θ) (perpv2_unit p_proximal p_distal))))

/-- The point of the frustum axis at axial index `i`:
`p_proximal + axis_unit_vector * t_i`. -/
noncomputable def frustum_axis_point (p_proximal p_distal : Vec3)
    (resolution i : ℕ) : Vec3 :=
  vadd p_proximal
    (smulV (frustum_t p_proximal p_distal resolution i)
      (axis_unit_vector p_proximal p_distal))

/-- One cap surface point of `get_frustrum_surface`
(PlotMorphology.py:976-984): the cap radii are `np.linspace(0, radius2, 2)`
(center and rim); the grid entry for radial index `k` and angular index `j`
is `p_distal + cap_r_k * sin(theta_j) * perpv1_unit
 + cap_r_k * cos(theta_j) * perpv2_unit`. -/
noncomputable def cap_point (p_proximal p_distal : Vec3) (radius2 : ℝ)
    (angular_resolution k j : ℕ) : Vec3 :=
  let cr := (linspace 0 radius2 2).getD k 0
  let θ := frustum_theta angular_resolution j
  vadd p_distal
    (vadd (smulV (cr * Real.sin θ) (perpv1_unit p_proximal p_distal))
      (smulV (cr * Real.cos θ) (perpv2_unit p_proximal p_distal)))

/-! ## Concrete inputs used by counterexamples and witnesses -/

/-- A filesystem in which only `base/out.dat` exists, with modification
time `5` and a single data line `0 1`. -/
def fsEq : FSState where
  isFile := fun s => s == "base/out.dat"
  mtime := fun _ => 5
  content := fun _ => [[0, 1]]

/-- The declared output file used by the concrete reload scenarios. -/
def ofDat : OutputFileDecl := ⟨"out.dat", ["v"]⟩

end PyNeuroML

namespace PyNeuroML

/-! # Theorems -/

/-! ## List/`linspace` helper lemmas -/

theorem linspace_length (a b : ℝ) (n : ℕ) : (linspace a b n).length = n := by
  simp only [linspace, List.length_map, List.length_range]

theorem linspace_getD (a b : ℝ) {n i : ℕ} (h : i < n) :
    (linspace a b n).getD i 0 = a + (b - a) * i / ((n : ℝ) - 1) := by
  simp only [linspace, List.getD_eq_getElem?_getD, List.getElem?_map,
    List.getElem?_range h, Option.map_some', Option.getD_some]

theorem linspace_getD_zero (a b : ℝ) {n : ℕ} (h : 0 < n) :
    (linspace a b n).getD 0 0 = a := by
  rw [linspace_getD a b h]
  simp

theorem linspace_mem_right (a b : ℝ) {n : ℕ} (h : 2 ≤ n) : b ∈ linspace a b n := by
  have h1 : 1 ≤ n := by omega
  apply List.mem_map.mpr
  refine ⟨n - 1, List.mem_range.mpr (by omega), ?_⟩
  have hc : ((n - 1 : ℕ) : ℝ) = (n : ℝ) - 1 := by
    rw [Nat.cast_sub h1, Nat.cast_one]
  have hn : ((n : ℝ) - 1) ≠ 0 := by
    have h2 : (2 : ℝ) ≤ (n : ℝ) := by exact_mod_cast h
    linarith
  rw [hc]
  field_simp

theorem getD_map_lt {α β : Type} (l : List α) (f : α → β) {i : ℕ} (d : β)
    (d' : α) (h : i < l.length) : (l.map f).getD i d = f (l.getD i d') := by
  rw [List.getD_eq_getElem _ _ (by simpa using h), List.getD_eq_getElem _ _ h]
  simp

/-! ## C7 -/

/-- Claim C7: in `plot_2D`, a rendered segment whose mean diameter is below
`min_width` is drawn with width exactly `min_width`, a segment whose mean
diameter is at least `min_width` is drawn with width exactly the mean
diameter, and the drawn width is never below the `min_width` floor
(equivalently, the width is `max min_width mean`). -/
theorem plot2d_seg_width_clamped (p_diameter d_diameter min_width : ℚ) :
    plot2d_seg_width p_diameter d_diameter min_width
      = max min_width ((p_diameter + d_diameter) / 2)
    ∧ min_width ≤ plot2d_seg_width p_diameter d_diameter min_width := by
  have hw : plot2d_seg_width p_diameter d_diameter min_width
      = if (p_diameter + d_diameter) / 2 < min_width then min_width
        else (p_diameter + d_diameter) / 2 := rfl
  rw [hw]
  constructor
  · split_ifs with h
    · exact (max_eq_left h.le).symm
    · exact (max_eq_right (not_lt.mp h)).symm
  · split_ifs with h
    · exact le_refl _
    · exact not_lt.mp h

/-! ## C9 -/

/-- Claim C9: with `skip_run = True`, `run_lems_with_jneuroml` reads its
local variable `success` before any assignment (the only assignment is
guarded by `if not skip_run`), so it raises `UnboundLocalError` and never
returns `True` or a reloaded-data result, regardless of the other inputs. -/
theorem run_lems_with_jneuroml_skip_run_unbound {ρ : Type}
    (run_result load_saved_data : Bool) (reload_result : ρ) :
    run_lems_with_jneuroml true run_result load_saved_data reload_result
      = .error "UnboundLocalError: local variable success referenced before assignment" :=
  rfl

/-! ## C10 -/

/-- Claim C10: with `load_saved_data = True`, `run_lems_with_eden` returns
the pair `(results, {})` regardless of `reload_events`; the `elif` branch
returning the bare results mapping is unreachable; with
`load_saved_data = False` it returns `True`. -/
theorem run_lems_with_eden_results {τ : Type} (runEden : String → τ)
    (lems_file_name : String) (reload_events : Bool) :
    run_lems_with_eden runEden lems_file_name true reload_events
      = .tracesAndEvents (runEden lems_file_name) []
    ∧ run_lems_with_eden runEden lems_file_name false reload_events
      = .boolVal true
    ∧ ∀ (load_saved_data : Bool) (t : τ),
        run_lems_with_eden runEden lems_file_name load_saved_data reload_events
          ≠ .traces t := by
  refine ⟨rfl, rfl, ?_⟩
  intro load_saved_data t
  cases load_saved_data <;> simp [run_lems_with_eden]

/-! ## C4 -/

/-- Claim C4 counterexample: with the default empty include list (and
`nogui = False`), the claim predicts no `-I` flag at all, i.e. empty
`post_args`; the code instead appends ` -I` with an empty quoted path, because the type check
`type(paths_to_include) in (tuple, list)` also accepts the empty list that
the truthiness guard skipped. -/
theorem post_args_empty_include_cex :
    jneuroml_post_args false (.plist []) ≠ "" := by
  decide

/-- Claim C4 (amended): the jnml `post_args` built by
`run_lems_with_jneuroml` has `" -nogui"` appended exactly when `nogui` is
requested, and has the include flag `-I <path1>:<path2>:...` (the given,
single-quoted
directories colon-joined) appended for every list of include directories —
including the empty list, which yields `-I` with an empty quoted path — while an empty-string
`paths_to_include` yields no `-I` flag. -/
theorem post_args_spec (nogui : Bool) (l : List String) :
    jneuroml_post_args nogui (.plist l)
      = (if nogui then " -nogui" else "")
          ++ (" -I \x27" ++ String.intercalate ":" l ++ "\x27")
    ∧ jneuroml_post_args nogui (.pstr "")
      = (if nogui then " -nogui" else "") := by
  constructor
  · cases nogui <;> cases l <;>
      simp [jneuroml_post_args, _gui_string, _include_string, PyPaths.truthy]
  · cases nogui <;> rfl

/-! ## C3 -/

/-- Claim C3 (code bug): for a simulation-specification mapping containing
an engine matching no `run_lems_with_*` function, `run_multiple_lems_with`
is meant to log an error and return the empty mapping, but the logging
f-string subscripts the top-level `sims_spec` dict with the key `engine`
(runners.py:203, instead of the current entry as at runners.py:182), so
the call raises `KeyError` before `return {}` is reached. -/
theorem run_multiple_lems_with_unknown_engine_keyerror :
    run_multiple_lems_with [("LEMS1.xml", ⟨"foo"⟩)] = .error "KeyError: engine" := by
  rfl

/-! ## C2 -/

/-- Claim C2: for a declared `OutputFile` name, `reload_saved_data` tries
candidate paths in the order: relative to `base_dir`, relative to the LEMS
file's own directory, relative to the current working directory, relative
to the `NeuroML2/results` subdirectory of the current working directory;
it uses the first existing candidate, and raises a not-found error exactly
when no candidate exists. -/
theorem resolve_output_file_order (fs : FSState)
    (base_dir base_lems_file_path cwd name : String) :
    (resolve_output_file fs base_dir base_lems_file_path cwd name
      = match (output_file_candidates base_dir base_lems_file_path cwd name).find?
            fs.isFile with
        | some f => .ok f
        | none => .error (.notFound
            (joinPath (joinPath (joinPath cwd "NeuroML2") "results") name)))
    ∧ ((resolve_output_file fs base_dir base_lems_file_path cwd name
          = .error (.notFound
              (joinPath (joinPath (joinPath cwd "NeuroML2") "results") name)))
        ↔ (output_file_candidates base_dir base_lems_file_path cwd name).all
            (fun f => !fs.isFile f) = true) := by
  cases h1 : fs.isFile (joinPath base_dir name) <;>
    cases h2 : fs.isFile (joinPath base_lems_file_path name) <;>
      cases h3 : fs.isFile (joinPath cwd name) <;>
        cases h4 : fs.isFile
            (joinPath (joinPath (joinPath cwd "NeuroML2") "results") name) <;>
          simp [resolve_output_file, output_file_candidates, List.find?,
            h1, h2, h3, h4]

/-! ## C1 -/

/-- Claim C1 counterexample: when the located output file's modification
time equals `t_run` (here both are `5`), the claim predicts a staleness
error, but `reload_saved_data` raises only when `t_file_mod < t_run`
(runners.py:1141), so it succeeds and returns the parsed traces. -/
theorem reload_staleness_equal_mtime_ok :
    reload_output_file fsEq "base" "lems" "cwd" 5 ofDat
      = .ok [("t", [0]), ("v", [1])] := by
  rfl

/-- Claim C1 (amended): for every declared `OutputFile` whose path resolves
to `f` (and whose lines have no more fields than declared columns),
`reload_saved_data` raises the staleness error exactly when the modification
time of `f` is strictly before the given run-start time `t_run`, and
succeeds — parsing the file into the trace mapping — whenever the
modification time is at or after `t_run`. -/
theorem reload_staleness_strict (fs : FSState)
    (base_dir base_lems_file_path cwd : String) (t_run : Int)
    (of : OutputFileDecl) (f : String)
    (hres : resolve_output_file fs base_dir base_lems_file_path cwd of.fileName
      = .ok f)
    (hwf : (fs.content f).all
      (fun l => l.length ≤ ("t" :: of.columns).length) = true) :
    (reload_output_file fs base_dir base_lems_file_path cwd t_run of
        = .error (.stale f (fs.mtime f) t_run)
      ↔ fs.mtime f < t_run)
    ∧ (t_run ≤ fs.mtime f →
        reload_output_file fs base_dir base_lems_file_path cwd t_run of
          = .ok (build_traces ("t" :: of.columns) (fs.content f))) := by
  have hro : reload_output_file fs base_dir base_lems_file_path cwd t_run of
      = if fs.mtime f < t_run then .error (.stale f (fs.mtime f) t_run)
        else .ok (build_traces ("t" :: of.columns) (fs.content f)) := by
    unfold reload_output_file
    rw [hres]
    have hwf' : ∀ x ∈ fs.content f, x.length ≤ ("t" :: of.columns).length := by
      intro x hx
      simpa using List.all_eq_true.mp hwf x hx
    simp only [List.length_cons] at hwf'
    by_cases hm : fs.mtime f < t_run
    · simp [hm]
    · simp only [hm, if_false, if_neg hm]
      simp
      exact hwf'
  rw [hro]
  by_cases h : fs.mtime f < t_run
  · simp [h]
  · simp [h, not_lt.mp h]

/-- Claim C1 witness: the concrete filesystem `fsEq` (modification time `5`),
run-start time `4`, and declared file `ofDat`; the staleness check is
satisfied and the traces are returned. -/
theorem reload_staleness_strict_witness :
    (reload_output_file fsEq "base" "lems" "cwd" 4 ofDat
        = .error (.stale "base/out.dat" (fsEq.mtime "base/out.dat") 4)
      ↔ fsEq.mtime "base/out.dat" < 4)
    ∧ (4 ≤ fsEq.mtime "base/out.dat" →
        reload_output_file fsEq "base" "lems" "cwd" 4 ofDat
          = .ok (build_traces ("t" :: ofDat.columns)
              (fsEq.content "base/out.dat"))) :=
  reload_staleness_strict fsEq "base" "lems" "cwd" 4 ofDat "base/out.dat"
    rfl rfl

/-! ## C6 -/

/-- Claim C6 counterexample: `get_sphere_surface` is claimed to sample the
azimuth `u` at exactly `resolution` points, but `np.mgrid[0:2*np.pi:resolution*2j]`
yields `2 * resolution` samples: at `resolution = 2` the grid has `4` rows,
not `2`. -/
theorem sphere_surface_u_count_cex :
    (get_sphere_surface_X 0 1 2).length ≠ 2 := by
  rw [get_sphere_surface_X, List.length_map, get_sphere_surface_u,
    linspace_length]
  omega

/-- Claim C6 (amended): for every resolution at least 2 (written `m + 2`),
`get_sphere_surface` samples the azimuth `u` at `2 * resolution` points and
the polar angle `v` at `resolution` points, over the closed intervals
`[0, 2π]` and `[0, π]` (both endpoints attained, rather than the half-open
intervals claimed), and every grid point satisfies
`X = r·cos(u)·sin(v) + cx`, `Y = r·sin(u)·sin(v) + cy`, `Z = r·cos(v) + cz`
for its sample pair `(u, v)`. -/
theorem sphere_surface_grid (m : ℕ) (cx cy cz radius : ℝ) :
    (get_sphere_surface_u (m + 2)).length = 2 * (m + 2)
    ∧ (get_sphere_surface_v (m + 2)).length = m + 2
    ∧ (get_sphere_surface_u (m + 2)).getD 0 0 = 0
    ∧ 2 * Real.pi ∈ get_sphere_surface_u (m + 2)
    ∧ (get_sphere_surface_v (m + 2)).getD 0 0 = 0
    ∧ Real.pi ∈ get_sphere_surface_v (m + 2)
    ∧ ∀ (i : Fin (2 * (m + 2))) (j : Fin (m + 2)),
        ((get_sphere_surface_X cx radius (m + 2)).getD i []).getD j 0
          = radius * Real.cos ((get_sphere_surface_u (m + 2)).getD i 0)
              * Real.sin ((get_sphere_surface_v (m + 2)).getD j 0) + cx
        ∧ ((get_sphere_surface_Y cy radius (m + 2)).getD i []).getD j 0
          = radius * Real.sin ((get_sphere_surface_u (m + 2)).getD i 0)
              * Real.sin ((get_sphere_surface_v (m + 2)).getD j 0) + cy
        ∧ ((get_sphere_surface_Z cz radius (m + 2)).getD i []).getD j 0
          = radius * Real.cos ((get_sphere_surface_v (m + 2)).getD j 0) + cz := by
  have hulen : (get_sphere_surface_u (m + 2)).length = 2 * (m + 2) :=
    linspace_length _ _ _
  have hvlen : (get_sphere_surface_v (m + 2)).length = m + 2 :=
    linspace_length _ _ _
  refine ⟨hulen, hvlen, ?_, ?_, ?_, ?_, ?_⟩
  · exact linspace_getD_zero _ _ (by omega)
  · exact linspace_mem_right _ _ (by omega)
  · exact linspace_getD_zero _ _ (by omega)
  · exact linspace_mem_right _ _ (by omega)
  · intro i j
    have hi : (i : ℕ) < (get_sphere_surface_u (m + 2)).length := by
      rw [hulen]; exact i.isLt
    have hj : (j : ℕ) < (get_sphere_surface_v (m + 2)).length := by
      rw [hvlen]; exact j.isLt
    refine ⟨?_, ?_, ?_⟩
    · rw [get_sphere_surface_X, getD_map_lt _ _ _ 0 hi,
        getD_map_lt _ _ _ 0 hj]
    · rw [get_sphere_surface_Y, getD_map_lt _ _ _ 0 hi,
        getD_map_lt _ _ _ 0 hj]
    · rw [get_sphere_surface_Z, getD_map_lt _ _ _ 0 hi,
        getD_map_lt _ _ _ 0 hj]

/-! ## Vec3 helper lemmas -/

theorem dot_self_nonneg (v : Vec3) : 0 ≤ dot v v := by
  unfold dot
  nlinarith [mul_self_nonneg v.x, mul_self_nonneg v.y, mul_self_nonneg v.z]

theorem dot_self_eq_zero_iff (v : Vec3) : dot v v = 0 ↔ v = vzero := by
  constructor
  · intro h
    unfold dot at h
    have hx : v.x = 0 := by
      nlinarith [mul_self_nonneg v.x, mul_self_nonneg v.y, mul_self_nonneg v.z]
    have hy : v.y = 0 := by
      nlinarith [mul_self_nonneg v.x, mul_self_nonneg v.y, mul_self_nonneg v.z]
    have hz : v.z = 0 := by
      nlinarith [mul_self_nonneg v.x, mul_self_nonneg v.y, mul_self_nonneg v.z]
    rw [Vec3.ext_iff']
    exact ⟨hx, hy, hz⟩
  · intro h
    rw [h]
    unfold dot vzero
    norm_num

theorem sq_vnorm (v : Vec3) : vnorm v ^ 2 = dot v v :=
  Real.sq_sqrt (dot_self_nonneg v)

theorem dot_cross_left (a b : Vec3) : dot a (cross a b) = 0 := by
  unfold dot cross
  ring

theorem dot_cross_right (a b : Vec3) : dot b (cross a b) = 0 := by
  unfold dot cross
  ring

theorem dot_cross_cross (a b : Vec3) :
    dot (cross a b) (cross a b) = dot a a * dot b b - (dot a b) ^ 2 := by
  unfold dot cross
  ring

theorem dot_vdivs_right (a b : Vec3) (s : ℝ) :
    dot a (vdivs b s) = dot a b / s := by
  unfold dot vdivs
  ring

theorem dot_vdivs_both (a : Vec3) (s : ℝ) :
    dot (vdivs a s) (vdivs a s) = dot a a / s ^ 2 := by
  unfold dot vdivs
  ring

theorem dot_add_smul (a b : ℝ) (w1 w2 : Vec3) :
    dot (vadd (smulV a w1) (smulV b w2)) (vadd (smulV a w1) (smulV b w2))
      = a ^ 2 * dot w1 w1 + 2 * a * b * dot w1 w2 + b ^ 2 * dot w2 w2 := by
  unfold dot vadd smulV
  ring

theorem vsub_eq_zero_iff (a b : Vec3) : vsub a b = vzero ↔ a = b := by
  rw [Vec3.ext_iff' (vsub a b) vzero, Vec3.ext_iff' a b]
  unfold vsub vzero
  simp [sub_eq_zero]

theorem vdivs_vzero (s : ℝ) : vdivs vzero s = vzero := by
  unfold vdivs vzero
  simp

theorem cross_vzero_right (a : Vec3) : cross a vzero = vzero := by
  unfold cross vzero
  simp

/-! ## Frustum frame lemmas -/

theorem axis_vector_ne_zero (p1 p2 : Vec3) (hp : p1 ≠ p2) :
    axis_vector p1 p2 ≠ vzero := by
  intro h
  exact hp (((vsub_eq_zero_iff p2 p1).mp h).symm)

theorem dot_axis_pos (p1 p2 : Vec3) (hp : p1 ≠ p2) :
    0 < dot (axis_vector p1 p2) (axis_vector p1 p2) :=
  lt_of_le_of_ne (dot_self_nonneg _)
    (fun h => axis_vector_ne_zero p1 p2 hp ((dot_self_eq_zero_iff _).mp h.symm))

theorem axis_mag_pos (p1 p2 : Vec3) (hp : p1 ≠ p2) : 0 < axis_mag p1 p2 := by
  have h : axis_mag p1 p2
      = Real.sqrt (dot (axis_vector p1 p2) (axis_vector p1 p2)) := rfl
  rw [h]
  exact Real.sqrt_pos.mpr (dot_axis_pos p1 p2 hp)

theorem axis_mag_ne_zero (p1 p2 : Vec3) (hp : p1 ≠ p2) :
    axis_mag p1 p2 ≠ 0 :=
  ne_of_gt (axis_mag_pos p1 p2 hp)

theorem dot_axis_unit_self (p1 p2 : Vec3) (hp : p1 ≠ p2) :
    dot (axis_unit_vector p1 p2) (axis_unit_vector p1 p2) = 1 := by
  have h1 : axis_unit_vector p1 p2
      = vdivs (axis_vector p1 p2) (axis_mag p1 p2) := rfl
  have h2 : axis_mag p1 p2 ^ 2
      = dot (axis_vector p1 p2) (axis_vector p1 p2) := by
    have h3 : axis_mag p1 p2 = vnorm (axis_vector p1 p2) := rfl
    rw [h3, sq_vnorm]
  rw [h1, dot_vdivs_both, h2, div_self (ne_of_gt (dot_axis_pos p1 p2 hp))]

/-- The frustum cross-section frame: away from the degenerate negative-X
axis direction, `perpv1` is nonzero, and the two derived vectors
`perpv1_unit`, `perpv2_unit` are orthonormal. -/
theorem frustum_frame (p1 p2 : Vec3) (hp : p1 ≠ p2)
    (hax : axis_unit_vector p1 p2 ≠ ⟨-1, 0, 0⟩) :
    0 < dot (perpv1 p1 p2) (perpv1 p1 p2)
    ∧ vnorm (perpv1 p1 p2) ≠ 0
    ∧ dot (perpv1_unit p1 p2) (perpv1_unit p1 p2) = 1
    ∧ dot (perpv2_unit p1 p2) (perpv2_unit p1 p2) = 1
    ∧ dot (perpv1_unit p1 p2) (perpv2_unit p1 p2) = 0 := by
  have huu := dot_axis_unit_self p1 p2 hp
  have hup : dot (axis_unit_vector p1 p2) (perpv1 p1 p2) = 0 := by
    have h1 : perpv1 p1 p2
        = cross (axis_unit_vector p1 p2)
            (somev (axis_unit_vector p1 p2)) := rfl
    rw [h1]
    exact dot_cross_left _ _
  have hPpos : 0 < dot (perpv1 p1 p2) (perpv1 p1 p2) := by
    by_cases hcase : axis_unit_vector p1 p2 = exV
    · have hP : perpv1 p1 p2 = cross exV eyV := by
        unfold perpv1 somev
        rw [hcase, if_pos rfl]
      rw [hP]
      unfold cross dot exV eyV
      norm_num
    · have hP : perpv1 p1 p2 = cross (axis_unit_vector p1 p2) exV := by
        unfold perpv1 somev
        rw [if_neg hcase]
      have hPP : dot (perpv1 p1 p2) (perpv1 p1 p2)
          = (axis_unit_vector p1 p2).y * (axis_unit_vector p1 p2).y
            + (axis_unit_vector p1 p2).z * (axis_unit_vector p1 p2).z := by
        rw [hP]
        unfold cross dot exV
        ring
      rw [hPP]
      by_contra hle
      push_neg at hle
      have hy : (axis_unit_vector p1 p2).y = 0 := by
        nlinarith [mul_self_nonneg (axis_unit_vector p1 p2).y,
          mul_self_nonneg (axis_unit_vector p1 p2).z]
      have hz : (axis_unit_vector p1 p2).z = 0 := by
        nlinarith [mul_self_nonneg (axis_unit_vector p1 p2).y,
          mul_self_nonneg (axis_unit_vector p1 p2).z]
      have hx2 : (axis_unit_vector p1 p2).x * (axis_unit_vector p1 p2).x = 1 := by
        unfold dot at huu
        rw [hy, hz] at huu
        linarith
      rcases mul_self_eq_one_iff.mp hx2 with h1 | h1
      · apply hcase
        rw [Vec3.ext_iff']
        unfold exV
        exact ⟨h1, hy, hz⟩
      · apply hax
        rw [Vec3.ext_iff']
        exact ⟨h1, hy, hz⟩
  have hnorm_pos : 0 < vnorm (perpv1 p1 p2) := by
    have h1 : vnorm (perpv1 p1 p2)
        = Real.sqrt (dot (perpv1 p1 p2) (perpv1 p1 p2)) := rfl
    rw [h1]
    exact Real.sqrt_pos.mpr hPpos
  have hn2 : vnorm (perpv1 p1 p2) ^ 2 = dot (perpv1 p1 p2) (perpv1 p1 p2) :=
    sq_vnorm _
  have hw1u : perpv1_unit p1 p2
      = vdivs (perpv1 p1 p2) (vnorm (perpv1 p1 p2)) := rfl
  have hw1 : dot (perpv1_unit p1 p2) (perpv1_unit p1 p2) = 1 := by
    rw [hw1u, dot_vdivs_both, hn2, div_self (ne_of_gt hPpos)]
  have huw1 : dot (axis_unit_vector p1 p2) (perpv1_unit p1 p2) = 0 := by
    rw [hw1u, dot_vdivs_right, hup, zero_div]
  have hw2u : perpv2_unit p1 p2
      = cross (axis_unit_vector p1 p2) (perpv1_unit p1 p2) := rfl
  have hw2 : dot (perpv2_unit p1 p2) (perpv2_unit p1 p2) = 1 := by
    rw [hw2u, dot_cross_cross, huu, hw1, huw1]
    norm_num
  have hw12 : dot (perpv1_unit p1 p2) (perpv2_unit p1 p2) = 0 := by
    rw [hw2u]
    exact dot_cross_right _ _
  exact ⟨hPpos, ne_of_gt hnorm_pos, hw1, hw2, hw12⟩

/-! ## Concrete frame evaluations (degenerate and regular axis) -/

theorem degen_axis_unit :
    axis_unit_vector ⟨0, 0, 0⟩ ⟨-1, 0, 0⟩ = ⟨-1, 0, 0⟩ := by
  have h1 : axis_vector ⟨0, 0, 0⟩ ⟨-1, 0, 0⟩ = ⟨-1, 0, 0⟩ := by
    unfold axis_vector vsub
    norm_num
  have h2 : axis_mag ⟨0, 0, 0⟩ ⟨-1, 0, 0⟩ = 1 := by
    unfold axis_mag vnorm
    rw [h1]
    unfold dot
    norm_num
  unfold axis_unit_vector
  rw [h1, h2]
  unfold vdivs
  norm_num

theorem degen_perpv1 : perpv1 ⟨0, 0, 0⟩ ⟨-1, 0, 0⟩ = vzero := by
  unfold perpv1 somev
  rw [degen_axis_unit, if_neg ?_]
  · unfold cross exV vzero
    norm_num
  · rw [Vec3.ext_iff']
    unfold exV
    norm_num

theorem degen_perpv1_unit : perpv1_unit ⟨0, 0, 0⟩ ⟨-1, 0, 0⟩ = vzero := by
  unfold perpv1_unit
  rw [degen_perpv1, vdivs_vzero]

theorem degen_perpv2_unit : perpv2_unit ⟨0, 0, 0⟩ ⟨-1, 0, 0⟩ = vzero := by
  unfold perpv2_unit
  rw [degen_perpv1_unit, cross_vzero_right]

theorem axis_unit_z : axis_unit_vector ⟨0, 0, 0⟩ ⟨0, 0, 1⟩ = ⟨0, 0, 1⟩ := by
  have h1 : axis_vector ⟨0, 0, 0⟩ ⟨0, 0, 1⟩ = ⟨0, 0, 1⟩ := by
    unfold axis_vector vsub
    norm_num
  have h2 : axis_mag ⟨0, 0, 0⟩ ⟨0, 0, 1⟩ = 1 := by
    unfold axis_mag vnorm
    rw [h1]
    unfold dot
    norm_num
  unfold axis_unit_vector
  rw [h1, h2]
  unfold vdivs
  norm_num

/-! ## C5 -/

/-- Claim C5 counterexample: the centers `(0,0,0)` and `(-1,0,0)` are
distinct, yet the axis unit vector is `(-1,0,0)`, which differs from the X
unit vector, so the auxiliary vector stays `(1,0,0)` — parallel to the
axis — and the first cross product is the zero vector, whose normalization
divides by zero (`np.linalg.norm(perpv1) = 0`). -/
theorem frustum_aux_parallel_cex :
    (Vec3.mk 0 0 0 ≠ Vec3.mk (-1) 0 0)
    ∧ perpv1 ⟨0, 0, 0⟩ ⟨-1, 0, 0⟩ = vzero
    ∧ vnorm (perpv1 ⟨0, 0, 0⟩ ⟨-1, 0, 0⟩) = 0 := by
  refine ⟨?_, degen_perpv1, ?_⟩
  · rw [Ne, Vec3.ext_iff']
    norm_num
  · rw [degen_perpv1]
    unfold vnorm dot vzero
    norm_num

/-- Claim C5 (amended): for every pair of distinct proximal and distal
centers whose axis unit vector is not the *negative* X unit vector, the
auxiliary vector of `get_frustrum_surface` is not parallel to the axis, so
the two derived cross-product vectors are nonzero and the normalizations
(by the axis magnitude and by `np.linalg.norm(perpv1)`) never divide by
zero.  (When the axis unit vector is exactly `(-1,0,0)` the equality test
against the X unit vector fails, the auxiliary vector is parallel to the
axis, and the code divides zero by zero, as the counterexample shows.) -/
theorem frustum_aux_not_parallel (p1 p2 : Vec3) (hp : p1 ≠ p2)
    (hax : axis_unit_vector p1 p2 ≠ ⟨-1, 0, 0⟩) :
    axis_mag p1 p2 ≠ 0
    ∧ perpv1 p1 p2 ≠ vzero
    ∧ vnorm (perpv1 p1 p2) ≠ 0
    ∧ perpv2_unit p1 p2 ≠ vzero := by
  obtain ⟨hPpos, hn, _, hw2, _⟩ := frustum_frame p1 p2 hp hax
  refine ⟨axis_mag_ne_zero p1 p2 hp, ?_, hn, ?_⟩
  · intro h
    rw [h] at hPpos
    unfold dot vzero at hPpos
    norm_num at hPpos
  · intro h
    rw [h] at hw2
    unfold dot vzero at hw2
    norm_num at hw2

/-- Claim C5 witness: the concrete distinct centers `(0,0,0)` and `(0,0,1)`
satisfy both hypotheses, and the conclusions hold there. -/
theorem frustum_aux_not_parallel_witness :
    axis_mag ⟨0, 0, 0⟩ ⟨0, 0, 1⟩ ≠ 0
    ∧ perpv1 ⟨0, 0, 0⟩ ⟨0, 0, 1⟩ ≠ vzero
    ∧ vnorm (perpv1 ⟨0, 0, 0⟩ ⟨0, 0, 1⟩) ≠ 0
    ∧ perpv2_unit ⟨0, 0, 0⟩ ⟨0, 0, 1⟩ ≠ vzero :=
  frustum_aux_not_parallel ⟨0, 0, 0⟩ ⟨0, 0, 1⟩
    (by rw [Ne, Vec3.ext_iff']; norm_num)
    (by rw [axis_unit_z, Ne, Vec3.ext_iff']; norm_num)

/-! ## C8 -/

/-- Claim C8 counterexample: for the distinct centers `(0,0,0)` and
`(-1,0,0)` with equal radii `1` (default resolutions 3 and 4), the axis
unit vector is the negative X unit vector, `perpv1` is the zero vector and
its normalization divides zero by zero (an IEEE `NaN` in numpy, the zero
vector under Lean's total division), so the first lateral grid point sits
*on* the axis: its squared distance from the axis is `0`, not the claimed
constant cross-sectional radius `1`. -/
theorem frustum_cylinder_radius_cex :
    dot (vsub (lateral_point ⟨0, 0, 0⟩ ⟨-1, 0, 0⟩ 1 1 3 4 0 0)
          (frustum_axis_point ⟨0, 0, 0⟩ ⟨-1, 0, 0⟩ 3 0))
        (vsub (lateral_point ⟨0, 0, 0⟩ ⟨-1, 0, 0⟩ 1 1 3 4 0 0)
          (frustum_axis_point ⟨0, 0, 0⟩ ⟨-1, 0, 0⟩ 3 0)) ≠ (1 : ℝ) ^ 2 := by
  have ht : frustum_t ⟨0, 0, 0⟩ ⟨-1, 0, 0⟩ 3 0 = 0 := by
    unfold frustum_t
    exact linspace_getD_zero _ _ (by norm_num)
  have hθ : frustum_theta 4 0 = 0 := by
    unfold frustum_theta
    exact linspace_getD_zero _ _ (by norm_num)
  have hL : lateral_point ⟨0, 0, 0⟩ ⟨-1, 0, 0⟩ 1 1 3 4 0 0 = ⟨0, 0, 0⟩ := by
    unfold lateral_point
    rw [ht, hθ, degen_perpv1_unit, degen_perpv2_unit]
    rw [Vec3.ext_iff']
    unfold vadd smulV vzero
    norm_num
  have hA : frustum_axis_point ⟨0, 0, 0⟩ ⟨-1, 0, 0⟩ 3 0 = ⟨0, 0, 0⟩ := by
    unfold frustum_axis_point
    rw [ht]
    rw [Vec3.ext_iff']
    unfold vadd smulV
    norm_num
  rw [hL, hA]
  unfold vsub dot
  norm_num

/-- Claim C8 (amended): for every two distinct centers whose axis unit
vector is not the negative X unit vector and every resolution at least 2:
with equal proximal/distal radii, every lateral surface point has squared
distance `r1 ^ 2` from its axis point — a true cylinder of constant
cross-sectional radius; and for any radii, the cap grid's outer ring point
(radial index 1, i.e. cap radius `radius2`) coincides with the lateral
surface's distal-end ring point (axial index `resolution - 1`) at the same
angular sample, so the cap seals against the tube. -/
theorem frustum_cylinder_and_cap (p1 p2 : Vec3) (r1 r2 : ℝ)
    (res ares i j : ℕ) (hp : p1 ≠ p2)
    (hax : axis_unit_vector p1 p2 ≠ ⟨-1, 0, 0⟩)
    (hres : 2 ≤ res) (hi : i < res) :
    dot (vsub (lateral_point p1 p2 r1 r1 res ares i j)
          (frustum_axis_point p1 p2 res i))
        (vsub (lateral_point p1 p2 r1 r1 res ares i j)
          (frustum_axis_point p1 p2 res i)) = r1 ^ 2
    ∧ cap_point p1 p2 r2 ares 1 j
        = lateral_point p1 p2 r1 r2 res ares (res - 1) j := by
  obtain ⟨_, _, hw1, hw2, hw12⟩ := frustum_frame p1 p2 hp hax
  have hcast : ((res - 1 : ℕ) : ℝ) = (res : ℝ) - 1 := by
    rw [Nat.cast_sub (by omega), Nat.cast_one]
  have hne : ((res : ℝ) - 1) ≠ 0 := by
    have h2 : (2 : ℝ) ≤ (res : ℝ) := by exact_mod_cast hres
    linarith
  constructor
  · -- constant cross-sectional radius
    have hr : frustum_r r1 r1 res i = r1 := by
      unfold frustum_r
      rw [linspace_getD _ _ hi]
      ring
    have hdiff : vsub (lateral_point p1 p2 r1 r1 res ares i j)
          (frustum_axis_point p1 p2 res i)
        = vadd
            (smulV (frustum_r r1 r1 res i * Real.sin (frustum_theta ares j))
              (perpv1_unit p1 p2))
            (smulV (frustum_r r1 r1 res i * Real.cos (frustum_theta ares j))
              (perpv2_unit p1 p2)) := by
      rw [Vec3.ext_iff']
      unfold lateral_point frustum_axis_point vadd vsub smulV
      refine ⟨?_, ?_, ?_⟩ <;> ring
    rw [hdiff, hr, dot_add_smul, hw1, hw2, hw12]
    have hpyth := Real.sin_sq_add_cos_sq (frustum_theta ares j)
    nlinarith [hpyth]
  · -- cap outer ring coincides with the distal-end lateral ring
    have ht : frustum_t p1 p2 res (res - 1) = axis_mag p1 p2 := by
      unfold frustum_t
      rw [linspace_getD _ _ (by omega : res - 1 < res), hcast]
      field_simp
    have hrlast : frustum_r r1 r2 res (res - 1) = r2 := by
      unfold frustum_r
      rw [linspace_getD _ _ (by omega : res - 1 < res), hcast]
      field_simp
    have hcr : (linspace 0 r2 2).getD 1 0 = r2 := by
      rw [linspace_getD _ _ (by norm_num : (1 : ℕ) < 2)]
      norm_num
    have hpd : vadd p1 (smulV (axis_mag p1 p2) (axis_unit_vector p1 p2)) = p2 := by
      have hm := axis_mag_ne_zero p1 p2 hp
      rw [Vec3.ext_iff']
      unfold axis_unit_vector axis_vector vadd smulV vdivs vsub
      refine ⟨?_, ?_, ?_⟩ <;> field_simp
    have hlat : lateral_point p1 p2 r1 r2 res ares (res - 1) j
        = vadd (vadd p1 (smulV (axis_mag p1 p2) (axis_unit_vector p1 p2)))
            (vadd
              (smulV (r2 * Real.sin (frustum_theta ares j)) (perpv1_unit p1 p2))
              (smulV (r2 * Real.cos (frustum_theta ares j)) (perpv2_unit p1 p2))) := by
      unfold lateral_point
      rw [ht, hrlast]
      rw [Vec3.ext_iff']
      unfold vadd smulV
      refine ⟨?_, ?_, ?_⟩ <;> ring
    rw [hlat, hpd]
    unfold cap_point
    rw [hcr]

/-- Claim C8 witness: the distinct centers `(0,0,0)` and `(0,0,1)`, radii
`2` and `3`, resolution `2`, angular resolution `4`, grid indices `(0, 0)`
satisfy every hypothesis, and the conclusions hold there. -/
theorem frustum_cylinder_and_cap_witness :
    dot (vsub (lateral_point ⟨0, 0, 0⟩ ⟨0, 0, 1⟩ 2 2 2 4 0 0)
          (frustum_axis_point ⟨0, 0, 0⟩ ⟨0, 0, 1⟩ 2 0))
        (vsub (lateral_point ⟨0, 0, 0⟩ ⟨0, 0, 1⟩ 2 2 2 4 0 0)
          (frustum_axis_point ⟨0, 0, 0⟩ ⟨0, 0, 1⟩ 2 0)) = (2 : ℝ) ^ 2
    ∧ cap_point ⟨0, 0, 0⟩ ⟨0, 0, 1⟩ 3 4 1 0
        = lateral_point ⟨0, 0, 0⟩ ⟨0, 0, 1⟩ 2 3 2 4 (2 - 1) 0 :=
  frustum_cylinder_and_cap ⟨0, 0, 0⟩ ⟨0, 0, 1⟩ 2 3 2 4 0 0
    (by rw [Ne, Vec3.ext_iff']; norm_num)
    (by rw [axis_unit_z, Ne, Vec3.ext_iff']; norm_num)
    (by norm_num) (by norm_num)

end PyNeuroML
